import Mathlib

/-!
Verification of the blobserver core (content-addressed blob cache) against
its natural-language specification.

Shallow embedding conventions:
* Filesystem paths are lists of segments (`FPath`); `filepath.Dir` is
  `List.dropLast`, `filepath.Join(dir, name)` is `dir ++ [name]`.
* File contents are lists of bytes (`Content`); a filesystem (`FS`) maps a
  path to `none` (absent) or `some content`.
* Go errors are modelled by `GErr`: `objectNotExist` is the
  `storage.ErrObjectNotExist` sentinel, `msg` a plain `fmt.Errorf` error, and
  `wrap ctx e` an error built with `fmt.Errorf("<ctx>: %w", e)`; `GErr.isNotExist`
  mirrors `errors.Is(err, storage.ErrObjectNotExist)`.
* External effects (GCS transport, origin HTTP responses, os-level open
  failures, temp-file fault injection) come from an `Env` of oracles; the
  mutable world (local filesystem and durable GCS bucket contents) is threaded
  explicitly as a `World`.
-/

abbrev FPath := List String

abbrev Content := List Nat

/-- A filesystem: maps each path to its content, or `none` when absent. -/
def FS := FPath → Option Content

/-- Point update of a filesystem (`none` deletes the file). -/
def setFile (fs : FS) (p : FPath) (v : Option Content) : FS :=
  fun q => if q = p then v else fs q

/-- Go error values as the blobserver builds them: the
`storage.ErrObjectNotExist` sentinel, a plain formatted error, or a
wrapping produced by `fmt.Errorf("<ctx>: %w", e)`. -/
inductive GErr where
  | objectNotExist : GErr
  | msg (s : String) : GErr
  | wrap (ctx : String) (e : GErr) : GErr
deriving DecidableEq

/-- `errors.Is(err, storage.ErrObjectNotExist)`: walks the wrap chain. -/
def GErr.isNotExist : GErr → Bool
  | .objectNotExist => true
  | .msg _ => false
  | .wrap _ e => e.isNotExist

/-- An entry of the static origin registry (`knownBlob` in the source). -/
structure knownBlob where
  Hash : String
  URL : String
deriving DecidableEq

/-- The static origin registry compiled into the blobserver. -/
def knownBlobs : List knownBlob :=
  [ { Hash := "77ebb031649ac7a16b89b4078feb197d56a61941b703a980233069a2670c811b",
      URL := "https://huggingface.co/unsloth/Llama-3.3-70B-Instruct-GGUF/resolve/main/Llama-3.3-70B-Instruct-Q6_K/Llama-3.3-70B-Instruct-Q6_K-00001-of-00002.gguf" },
    { Hash := "f50428a8c9912e949f5273174e66c9febdc7cd21617595de2dc0e5c9df536434",
      URL := "https://huggingface.co/unsloth/Llama-3.3-70B-Instruct-GGUF/resolve/main/Llama-3.3-70B-Instruct-Q6_K/Llama-3.3-70B-Instruct-Q6_K-00002-of-00002.gguf" },
    { Hash := "ecb6908345e7a10be94511eae715b6b6eadbc518b7c1dd0fd5ba8816b62b4dc9",
      URL := "https://huggingface.co/unsloth/gemma-3-12b-it-GGUF/resolve/main/gemma-3-12b-it-Q4_K_M.gguf" } ]

/-- The scan loop of `blobCache.SourceForBlob`: `source` starts empty and is
overwritten by the URL of every entry whose hash matches. -/
def sourceLoop (registry : List knownBlob) (hash : String) : String :=
  registry.foldl (fun source kb => if kb.Hash = hash then kb.URL else source) ""

/-- `blobCache.SourceForBlob`, generalized over the registry the loop scans
(the source reads the package-level `knownBlobs`). -/
def sourceForBlobIn (registry : List knownBlob) (hash : String) : Except GErr String :=
  let source := sourceLoop registry hash
  if source = "" then .error (.msg ("blob " ++ hash ++ " not known"))
  else .ok source

/-- `blobCache.SourceForBlob` on the compiled-in registry. -/
def SourceForBlob (hash : String) : Except GErr String :=
  sourceForBlobIn knownBlobs hash

/-- Fault-injection oracle for one `writeToFile` call: whether temp-file
creation fails, whether the copy fails (after how many bytes, with what
message), whether the close fails, whether the rename fails. -/
structure WriteFaults where
  createTempFail : Option String
  copyFail : Option (Nat × String)
  closeFail : Option String
  renameFail : Option String
deriving DecidableEq

/-- The all-succeed fault oracle. -/
def noFaults : WriteFaults := ⟨none, none, none, none⟩

/-- `writeToFile` (the AtomicFileWriter): creates a temp file in the
destination's directory, copies the source bytes into it, closes it, and
renames it onto the destination; on any failure the deferred cleanups close
and remove the temp file. `tempName` is the fresh name `os.CreateTemp`
chooses. -/
def writeToFile (fl : WriteFaults) (tempName : String) (fs : FS) (destinationPath : FPath)
    (src : Content) : Except String Nat × FS :=
  match fl.createTempFail with
  | some e => (.error ("creating temp file: " ++ e), fs)
  | none =>
    let tempPath := destinationPath.dropLast ++ [tempName]
    let fs0 := setFile fs tempPath (some [])
    match fl.copyFail with
    | some (n, e) =>
      (.error ("downloading from upstream source: " ++ e),
        setFile (setFile fs0 tempPath (some (src.take n))) tempPath none)
    | none =>
      let fs1 := setFile fs0 tempPath (some src)
      match fl.closeFail with
      | some e => (.error ("closing temp file: " ++ e), setFile fs1 tempPath none)
      | none =>
        match fl.renameFail with
        | some e => (.error ("renaming temp file: " ++ e), setFile fs1 tempPath none)
        | none => (.ok src.length, setFile (setFile fs1 tempPath none) destinationPath (some src))

/-- Oracles for the blobserver's external effects. `gcsDlErr`/`gcsAttrsErr`/
`gcsUploadCopyErr` force transport-class failures of the corresponding GCS
calls; `originResp` is the origin HTTP GET outcome per URL (transport error,
or status code and body); `openErr` forces a non-"not exist" failure of
`os.Open` on a path; `writeFaults`/`tempName` drive `writeToFile`. -/
structure Env where
  gcsDlErr : String → Option String
  gcsAttrsErr : String → Option String
  gcsUploadCopyErr : String → Option String
  originResp : String → Except String (Nat × Content)
  openErr : FPath → Option String
  writeFaults : WriteFaults
  tempName : String

/-- The mutable world: local filesystem and the durable GCS bucket
(object key, i.e. hash, to content). -/
structure World where
  fs : FS
  gcs : String → Option Content

/-- `gcsStore.Download`: open a reader on the object (transport failure or
the `ErrObjectNotExist` sentinel are wrapped by
`fmt.Errorf("opening object from GCS %q: %w", ...)`), then stream it to the
destination through `writeToFile` (whose failure is wrapped by
`fmt.Errorf("downloading from GCS: %w", ...)`). -/
def gcsDownload (env : Env) (w : World) (hash : String) (destinationPath : FPath) :
    Except GErr Unit × World :=
  match env.gcsDlErr hash with
  | some e => (.error (.wrap ("opening object from GCS " ++ hash) (.msg e)), w)
  | none =>
    match w.gcs hash with
    | none => (.error (.wrap ("opening object from GCS " ++ hash) .objectNotExist), w)
    | some c =>
      match writeToFile env.writeFaults env.tempName w.fs destinationPath c with
      | (.error e, fs') => (.error (.wrap ("downloading from GCS") (.msg e)), { w with fs := fs' })
      | (.ok _, fs') => (.ok (), { w with fs := fs' })

/-- `gcsStore.Upload`: open the source file, fetch the object's attributes
(`ErrObjectNotExist` falls through to the upload, any other attributes error
is returned), skip the write when the object already exists, otherwise copy
the source bytes into the object. -/
def gcsUpload (env : Env) (w : World) (sourcePath : FPath) (hash : String) :
    Except GErr Unit × World :=
  match env.openErr sourcePath with
  | some e => (.error (.wrap ("opening source file") (.msg e)), w)
  | none =>
    match w.fs sourcePath with
    | none => (.error (.wrap ("opening source file") (.msg ("file does not exist"))), w)
    | some content =>
      match env.gcsAttrsErr hash with
      | some e => (.error (.wrap ("getting object attributes for " ++ hash) (.msg e)), w)
      | none =>
        match w.gcs hash with
        | some _ => (.ok (), w)
        | none =>
          match env.gcsUploadCopyErr hash with
          | some e => (.error (.wrap ("uploading to GCS") (.msg e)), w)
          | none => (.ok (), { w with gcs := fun h => if h = hash then some content else w.gcs h })

/-- `downloadJob.downloadFromSource`: HTTP GET on the origin URL (transport
failure wrapped by "doing request"), non-200 status fatal, then stream the
body to the destination through `writeToFile` (whose error is returned
as-is). -/
def downloadFromSource (env : Env) (fs : FS) (sourceURL : String) (destinationPath : FPath) :
    Except GErr Unit × FS :=
  match env.originResp sourceURL with
  | .error e => (.error (.wrap ("doing request") (.msg e)), fs)
  | .ok (status, body) =>
    if status ≠ 200 then
      (.error (.msg ("unexpected status downloading from upstream source: " ++ toString status)), fs)
    else
      match writeToFile env.writeFaults env.tempName fs destinationPath body with
      | (.error e, fs') => (.error (.msg e), fs')
      | (.ok _, fs') => (.ok (), fs')

/-- Observable network-level events of one resolution pipeline. -/
inductive Ev where
  | gcsDownloadEv (hash : String) : Ev
  | sourceLookupEv (hash : String) : Ev
  | originRequestEv (url : String) : Ev
  | gcsUploadEv (hash : String) : Ev
deriving DecidableEq

/-- `downloadJob.run`: try the durable tier; on the `ErrObjectNotExist`
sentinel (checked with `errors.Is`) fall through to resolving the origin URL,
fetching it, and uploading the result back to GCS; any other durable error is
wrapped by "downloading from GCS" and returned. The event list records which
tiers were contacted, in order. -/
def downloadJobRun (env : Env) (registry : List knownBlob) (w : World) (hash : String)
    (destinationPath : FPath) : Except GErr Unit × World × List Ev :=
  match gcsDownload env w hash destinationPath with
  | (.ok _, w1) => (.ok (), w1, [.gcsDownloadEv hash])
  | (.error e, w1) =>
    if e.isNotExist then
      match sourceForBlobIn registry hash with
      | .error e2 =>
        (.error (.wrap ("getting source for blob " ++ hash) e2), w1,
          [.gcsDownloadEv hash, .sourceLookupEv hash])
      | .ok source =>
        match downloadFromSource env w1.fs source destinationPath with
        | (.error e3, fs2) =>
          (.error (.wrap ("downloading blob " ++ hash) e3), { w1 with fs := fs2 },
            [.gcsDownloadEv hash, .sourceLookupEv hash, .originRequestEv source])
        | (.ok _, fs2) =>
          match gcsUpload env { w1 with fs := fs2 } destinationPath hash with
          | (.error e4, w3) =>
            (.error (.wrap ("uploading to GCS") e4), w3,
              [.gcsDownloadEv hash, .sourceLookupEv hash, .originRequestEv source,
                .gcsUploadEv hash])
          | (.ok _, w3) =>
            (.ok (), w3,
              [.gcsDownloadEv hash, .sourceLookupEv hash, .originRequestEv source,
                .gcsUploadEv hash])
    else
      (.error (.wrap ("downloading from GCS") e), w1, [.gcsDownloadEv hash])

/-- An `InFlightJob` as stored in the coordinator's jobs map. -/
structure DownloadJobRec where
  Hash : String
  DestinationPath : FPath
deriving DecidableEq

/-- The coordinator's state: the in-flight jobs map and the world it
mutates. -/
structure CacheState where
  jobs : String → Option DownloadJobRec
  world : World

/-- `blobCache.downloadBlob`: under the lock, fail fast with "already in
progress" when a job for the hash is registered; otherwise register a new
job, run the pipeline, and remove the job again whatever the outcome. -/
def downloadBlob (env : Env) (registry : List knownBlob) (st : CacheState) (hash : String)
    (destinationPath : FPath) : Except GErr Unit × CacheState × List Ev :=
  match st.jobs hash with
  | some _ => (.error (.msg ("download of " ++ hash ++ " already in progress")), st, [])
  | none =>
    let job : DownloadJobRec := ⟨hash, destinationPath⟩
    let jobs1 : String → Option DownloadJobRec := fun h => if h = hash then some job else st.jobs h
    match downloadJobRun env registry st.world hash destinationPath with
    | (res, w', tr) =>
      (res, { jobs := fun h => if h = hash then none else jobs1 h, world := w' }, tr)

/-- Outcome of `os.Open` on the local filesystem: the file's content, the
"does not exist" error, or some other (e.g. permission) failure. -/
inductive OpenResult where
  | okc (c : Content) : OpenResult
  | notExist : OpenResult
  | openFailed (e : String) : OpenResult
deriving DecidableEq

/-- `os.Open` against the modelled filesystem, with `Env.openErr` injecting
non-"not exist" failures. -/
def openFile (env : Env) (fs : FS) (p : FPath) : OpenResult :=
  match env.openErr p with
  | some e => .openFailed e
  | none =>
    match fs p with
    | some c => .okc c
    | none => .notExist

/-- `blobCache.GetBlob`: open the local cache path; on success return the
file; on a non-"not exist" open error return it wrapped by
`fmt.Errorf("opening blob %q: %w", ...)`; on "not exist" run `downloadBlob`
(whose error is wrapped by "downloading blob") and re-open the path,
returning the second open's outcome as-is. -/
def GetBlob (env : Env) (registry : List knownBlob) (baseDir : FPath) (st : CacheState)
    (hash : String) : Except GErr Content × CacheState × List Ev :=
  let localPath := baseDir ++ [hash]
  match openFile env st.world.fs localPath with
  | .okc c => (.ok c, st, [])
  | .openFailed e => (.error (.wrap ("opening blob " ++ hash) (.msg e)), st, [])
  | .notExist =>
    match downloadBlob env registry st hash localPath with
    | (.error e, st', tr) => (.error (.wrap ("downloading blob " ++ hash) e), st', tr)
    | (.ok _, st', tr) =>
      match openFile env st'.world.fs localPath with
      | .okc c => (.ok c, st', tr)
      | .notExist => (.error (.msg ("file does not exist")), st', tr)
      | .openFailed e => (.error (.msg e), st', tr)

/-- `strings.TrimPrefix(s, pre)` over character lists: remove `pre` when it
is a leading substring, otherwise return `s` unchanged. -/
def trimPrefixGo (s pre : List Char) : List Char :=
  if pre.isPrefixOf s then s.drop pre.length else s

/-- `strings.Split(s, sep)` for a one-character separator: the substrings
between consecutive separators (always at least one piece, like Go's
`Split`). -/
def splitGo (sep : Char) : List Char → List (List Char)
  | [] => [[]]
  | c :: cs =>
    if c = sep then [] :: splitGo sep cs
    else
      match splitGo sep cs with
      | t :: ts => (c :: t) :: ts
      | [] => [[c]]

/-- The request path split exactly as `httpServer.ServeHTTP` does:
`strings.Split(strings.TrimPrefix(r.URL.Path, "/"), "/")`. -/
def pathTokens (path : String) : List String :=
  (splitGo '/' (trimPrefixGo path.data ("/").data)).map (fun cs => String.mk cs)

/-- An HTTP response of the blobserver: a file served by `http.ServeFile`
(status 200 with the blob's bytes for a plain GET) or an `http.Error` with
the given status code. -/
inductive HTTPResponse where
  | okFile (p : FPath) : HTTPResponse
  | errorResp (status : Nat) : HTTPResponse
deriving DecidableEq

/-- `httpServer.ServeHTTP` (with `serveGETBlob` inlined): one path token is
treated as a blob hash — GET resolves it through `GetBlob` (200 on success,
500 on failure), any other method gets 405; any other token count gets
404. -/
def serveHTTP (env : Env) (registry : List knownBlob) (baseDir : FPath) (st : CacheState)
    (method : String) (path : String) : HTTPResponse × CacheState :=
  match pathTokens path with
  | [hash] =>
    if method = "GET" then
      match GetBlob env registry baseDir st hash with
      | (.ok _, st', _) => (.okFile (baseDir ++ [hash]), st')
      | (.error _, st', _) => (.errorResp 500, st')
    else (.errorResp 405, st)
  | _ => (.errorResp 404, st)

/-- Per-attempt oracle for the ModelLoader's downloader: the HTTP response
for the attempt's GET, plus the temp-file faults of that attempt. -/
structure MLFaults where
  resp : Except String (Nat × Content)
  wf : WriteFaults

/-- `ModelLoader.downloadToFileNoRetry`: create a temp file next to the
destination, stream the GET body into it via `downloadToWriter` (transport
error wrapped by "doing request", non-200 status fatal, copy failure wrapped
by "downloading from upstream source"; the whole thing wrapped by
`fmt.Errorf("downloading from %q: %w", ...)`), close it, and rename it onto
the destination; deferred cleanups remove the temp file on every failure. -/
def downloadToFileNoRetry (f : MLFaults) (tempName : String) (fs : FS) (url : String)
    (destPath : FPath) : Except GErr Unit × FS :=
  match f.wf.createTempFail with
  | some e => (.error (.wrap ("creating temp file") (.msg e)), fs)
  | none =>
    let tempPath := destPath.dropLast ++ [tempName]
    let fs0 := setFile fs tempPath (some [])
    match f.resp with
    | .error e =>
      (.error (.wrap ("downloading from " ++ url) (.wrap ("doing request") (.msg e))),
        setFile fs0 tempPath none)
    | .ok (status, body) =>
      if status ≠ 200 then
        (.error (.wrap ("downloading from " ++ url)
            (.msg ("unexpected status downloading from upstream source: " ++ toString status))),
          setFile fs0 tempPath none)
      else
        match f.wf.copyFail with
        | some (n, e) =>
          (.error (.wrap ("downloading from " ++ url)
              (.wrap ("downloading from upstream source") (.msg e))),
            setFile (setFile fs0 tempPath (some (body.take n))) tempPath none)
        | none =>
          let fs1 := setFile fs0 tempPath (some body)
          match f.wf.closeFail with
          | some e => (.error (.wrap ("closing temp file") (.msg e)), setFile fs1 tempPath none)
          | none =>
            match f.wf.renameFail with
            | some e => (.error (.wrap ("renaming temp file") (.msg e)), setFile fs1 tempPath none)
            | none => (.ok (), setFile (setFile fs1 tempPath none) destPath (some body))

/-- The result `downloadToFileNoRetry` produces, as a function of the
attempt's oracle alone (it does not depend on the starting filesystem). -/
def noRetryRes (f : MLFaults) (url : String) : Except GErr Unit :=
  match f.wf.createTempFail with
  | some e => .error (.wrap ("creating temp file") (.msg e))
  | none =>
    match f.resp with
    | .error e => .error (.wrap ("downloading from " ++ url) (.wrap ("doing request") (.msg e)))
    | .ok (status, _) =>
      if status ≠ 200 then
        .error (.wrap ("downloading from " ++ url)
          (.msg ("unexpected status downloading from upstream source: " ++ toString status)))
      else
        match f.wf.copyFail with
        | some (_, e) =>
          .error (.wrap ("downloading from " ++ url)
            (.wrap ("downloading from upstream source") (.msg e)))
        | none =>
          match f.wf.closeFail with
          | some e => .error (.wrap ("closing temp file") (.msg e))
          | none =>
            match f.wf.renameFail with
            | some e => .error (.wrap ("renaming temp file") (.msg e))
            | none => .ok ()

/-- The retry loop of `ModelLoader.downloadToFile`, from a given number of
attempts already made: increment the attempt counter, try
`downloadToFileNoRetry`, return on success, return the error verbatim once
`attempt >= maxDownloadAttempts`, otherwise sleep five seconds and retry.
Returns (outcome, filesystem, attempts made, sleep durations). -/
def downloadToFileFrom (oracle : Nat → MLFaults) (tempNames : Nat → String)
    (maxDownloadAttempts : Nat) (url : String) (destPath : FPath) :
    Nat → FS → Except GErr Unit × FS × Nat × List Nat
  | attempt, fs =>
    match downloadToFileNoRetry (oracle (attempt + 1)) (tempNames (attempt + 1)) fs url
        destPath with
    | (.ok _, fs') => (.ok (), fs', attempt + 1, [])
    | (.error e, fs') =>
      if h : maxDownloadAttempts ≤ attempt + 1 then (.error e, fs', attempt + 1, [])
      else
        let r := downloadToFileFrom oracle tempNames maxDownloadAttempts url destPath
          (attempt + 1) fs'
        (r.1, r.2.1, r.2.2.1, 5 :: r.2.2.2)
  termination_by attempt _ => maxDownloadAttempts - attempt
  decreasing_by simp only [not_le] at h; omega

/-- `ModelLoader.downloadToFile`: the retry loop started at attempt 0. -/
def downloadToFile (oracle : Nat → MLFaults) (tempNames : Nat → String)
    (maxDownloadAttempts : Nat) (url : String) (destPath : FPath) (fs : FS) :
    Except GErr Unit × FS × Nat × List Nat :=
  downloadToFileFrom oracle tempNames maxDownloadAttempts url destPath 0 fs

deriving instance DecidableEq for Except

theorem setFile_same (fs : FS) (p : FPath) (v : Option Content) : setFile fs p v p = v := by
  simp [setFile]

theorem setFile_other (fs : FS) (p q : FPath) (v : Option Content) (h : q ≠ p) :
    setFile fs p v q = fs q := by
  simp [setFile, h]

/-- Sample oracle environment: every external call succeeds and the origin
serves status 200 with body `[1, 2, 3]`. -/
def envA : Env :=
  { gcsDlErr := fun _ => none
    gcsAttrsErr := fun _ => none
    gcsUploadCopyErr := fun _ => none
    originResp := fun _ => .ok (200, [1, 2, 3])
    openErr := fun _ => none
    writeFaults := noFaults
    tempName := "tmp" }

/-- Sample world: empty local filesystem and empty durable store. -/
def worldEmpty : World := { fs := fun _ => none, gcs := fun _ => none }

/-- Sample coordinator state: no in-flight jobs over the empty world. -/
def stEmpty : CacheState := { jobs := fun _ => none, world := worldEmpty }

/-- Sample registry mapping hash `h` to origin URL `u`. -/
def regA : List knownBlob := [⟨"h", "u"⟩]

/-- C1: if an `InFlightJob` for the identifier is already registered in the
jobs map, `downloadBlob` returns the "already in progress" error immediately,
registers no new job, leaves the whole state (jobs map included) unchanged,
and performs no pipeline events. -/
theorem claim_C1_fail_fast (env : Env) (registry : List knownBlob) (st : CacheState)
    (hash : String) (destinationPath : FPath) (job : DownloadJobRec)
    (hjob : st.jobs hash = some job) :
    downloadBlob env registry st hash destinationPath =
      (.error (.msg ("download of " ++ hash ++ " already in progress")), st, []) := by
  unfold downloadBlob
  rw [hjob]

/-- Witness for C1 at a concrete state holding an in-flight job for `h`. -/
theorem claim_C1_witness :
    downloadBlob envA regA
        { jobs := fun h => if h = "h" then some ⟨"h", ["d"]⟩ else none, world := worldEmpty }
        "h" ["d"] =
      (.error (.msg ("download of h already in progress")),
        { jobs := fun h => if h = "h" then some ⟨"h", ["d"]⟩ else none, world := worldEmpty },
        []) :=
  claim_C1_fail_fast envA regA _ "h" ["d"] ⟨"h", ["d"]⟩ (by simp)

/-- C8: a call to `downloadBlob` that admits a job (no job for the identifier
was registered when it ran) removes that job again before returning, whatever
the pipeline's outcome: afterwards no `InFlightJob` for the identifier is
registered. -/
theorem claim_C8_job_removed (env : Env) (registry : List knownBlob) (st : CacheState)
    (hash : String) (destinationPath : FPath)
    (hjob : st.jobs hash = none) :
    ((downloadBlob env registry st hash destinationPath).2.1).jobs hash = none := by
  unfold downloadBlob
  rw [hjob]
  rcases downloadJobRun env registry st.world hash destinationPath with ⟨res, w', tr⟩
  simp

/-- Witness for C8: a full successful resolution for `h` from the empty
state leaves no job registered for `h`. -/
theorem claim_C8_witness :
    ((downloadBlob envA regA stEmpty "h" ["base", "h"]).2.1).jobs "h" = none :=
  claim_C8_job_removed envA regA stEmpty "h" ["base", "h"] rfl

/-- C9: when opening the local cache path fails with anything other than the
"file does not exist" condition, `GetBlob` returns that error wrapped by
"opening blob" immediately: the state is unchanged and no tiered-resolution
event happens. -/
theorem claim_C9_open_error_propagates (env : Env) (registry : List knownBlob)
    (baseDir : FPath) (st : CacheState) (hash e : String)
    (hopen : env.openErr (baseDir ++ [hash]) = some e) :
    GetBlob env registry baseDir st hash =
      (.error (.wrap ("opening blob " ++ hash) (.msg e)), st, []) := by
  unfold GetBlob openFile
  simp only [hopen]

/-- Witness for C9 at an environment whose `os.Open` fails with a permission
error. -/
theorem claim_C9_witness :
    GetBlob { envA with openErr := fun _ => some ("permission denied") } regA ["base"]
        stEmpty "h" =
      (.error (.wrap ("opening blob h") (.msg ("permission denied"))), stEmpty, []) :=
  claim_C9_open_error_propagates _ regA ["base"] stEmpty "h" "permission denied" rfl

/-- C2: `writeToFile` creates its temporary file in the destination's
directory, and for every fault pattern — temp-creation failure, copy
failure, close failure, rename failure, or success — it ends with either the
complete file published at the destination (success) or no temporary file
remaining; on error the destination's previous content or absence is
untouched and the temp file is gone. `hfresh` and `hne` record that
`os.CreateTemp` picks a fresh name distinct from the destination's. -/
theorem claim_C2_writeToFile_atomic (fl : WriteFaults) (tempName : String) (fs : FS)
    (dest : FPath) (src : Content)
    (hfresh : fs (dest.dropLast ++ [tempName]) = none)
    (hne : dest.dropLast ++ [tempName] ≠ dest) :
    (dest.dropLast ++ [tempName]).dropLast = dest.dropLast ∧
    ((∃ e, (writeToFile fl tempName fs dest src).1 = .error e) →
      (writeToFile fl tempName fs dest src).2 dest = fs dest ∧
      (writeToFile fl tempName fs dest src).2 (dest.dropLast ++ [tempName]) = none) ∧
    (∀ n, (writeToFile fl tempName fs dest src).1 = .ok n →
      (writeToFile fl tempName fs dest src).2 dest = some src ∧
      (writeToFile fl tempName fs dest src).2 (dest.dropLast ++ [tempName]) = none ∧
      n = src.length) := by
  have hne' : dest ≠ dest.dropLast ++ [tempName] := fun h => hne h.symm
  refine ⟨List.dropLast_concat .., ?_, ?_⟩ <;>
    rcases fl with ⟨ct, cp, cl, rn⟩ <;>
      cases ct <;> cases cp <;> cases cl <;> cases rn <;>
        simp [writeToFile, setFile, hfresh, hne, hne']

/-- Witness for C2: a successful write publishes the content at the
destination and leaves no temp file; a rename-failure write leaves the
destination absent and no temp file. -/
theorem claim_C2_witness :
    (writeToFile noFaults "t" (fun _ => none) ["d", "f"] [1, 2]).2 ["d", "f"] = some [1, 2] ∧
    (writeToFile noFaults "t" (fun _ => none) ["d", "f"] [1, 2]).2 ["d", "t"] = none ∧
    (writeToFile ⟨none, none, none, some ("disk full")⟩ "t" (fun _ => none) ["d", "f"]
        [1, 2]).2 ["d", "f"] = none ∧
    (writeToFile ⟨none, none, none, some ("disk full")⟩ "t" (fun _ => none) ["d", "f"]
        [1, 2]).2 ["d", "t"] = none := by
  have hok := (claim_C2_writeToFile_atomic noFaults "t" (fun _ => none) ["d", "f"] [1, 2]
    rfl (by decide)).2.2 2 (by decide)
  have herr := (claim_C2_writeToFile_atomic ⟨none, none, none, some ("disk full")⟩ "t"
    (fun _ => none) ["d", "f"] [1, 2] rfl (by decide)).2.1
    ⟨"renaming temp file: disk full", by decide⟩
  exact ⟨hok.1, hok.2.1, herr.1, herr.2⟩

theorem sourceLoop_concat (registry : List knownBlob) (kb : knownBlob) (hash : String) :
    sourceLoop (registry ++ [kb]) hash =
      if kb.Hash = hash then kb.URL else sourceLoop registry hash := by
  simp [sourceLoop, List.foldl_append]

/-- The loop of `SourceForBlob` computes the URL of the last matching
registry entry (the first match of the reversed registry), with the empty
string doubling as the no-match sentinel. -/
theorem sourceLoop_eq_lastMatch (registry : List knownBlob) (hash : String) :
    sourceLoop registry hash =
      match registry.reverse.find? (fun kb => kb.Hash = hash) with
      | none => ""
      | some kb => kb.URL := by
  induction registry using List.reverseRecOn with
  | nil => simp [sourceLoop]
  | append_singleton l kb ih =>
    rw [sourceLoop_concat]
    by_cases h : kb.Hash = hash
    · simp [h, List.find?]
    · simp [h, List.find?, ih]

/-- Counterexample for C10 as stated: for the registry `[⟨h, ""⟩]` the single
entry matches identifier `h`, yet `SourceForBlob`'s loop reports "not known"
instead of returning that entry's (empty) URL, because the empty string is
also its no-match sentinel. -/
theorem claim_C10_counterexample :
    sourceForBlobIn [⟨"h", ""⟩] "h" = .error (.msg ("blob h not known")) ∧
    (⟨"h", ""⟩ : knownBlob).Hash = "h" := by
  exact ⟨by decide, rfl⟩

/-- C10 (amended): `SourceForBlob` scans the entire registry without
stopping at the first match; its result is determined by the last matching
entry alone — that entry's URL when the URL is nonempty, and the "not known"
error exactly when no entry matches or the last matching entry's URL is the
empty string (the loop's no-match sentinel). -/
theorem claim_C10_last_match_wins (registry : List knownBlob) (hash : String) :
    sourceForBlobIn registry hash =
      match registry.reverse.find? (fun kb => kb.Hash = hash) with
      | none => .error (.msg ("blob " ++ hash ++ " not known"))
      | some kb =>
        if kb.URL = "" then .error (.msg ("blob " ++ hash ++ " not known"))
        else .ok kb.URL := by
  unfold sourceForBlobIn
  rw [sourceLoop_eq_lastMatch]
  generalize registry.reverse.find? (fun kb => kb.Hash = hash) = r
  rcases r with _ | kb
  · simp
  · by_cases h : kb.URL = "" <;> simp [h]

/-- C3: the pipeline falls through to the origin tier (observable as the
origin-registry lookup event) exactly when the durable-store download fails
with the `ErrObjectNotExist` sentinel; a successful durable download returns
success with no further tier contacted; and any other durable-store error is
returned immediately, wrapped by "downloading from GCS", with no further
tier contacted. -/
theorem claim_C3_durable_gate (env : Env) (registry : List knownBlob) (w : World)
    (hash : String) (destinationPath : FPath) :
    (∀ u w1, gcsDownload env w hash destinationPath = (.ok u, w1) →
      downloadJobRun env registry w hash destinationPath =
        (.ok (), w1, [.gcsDownloadEv hash])) ∧
    (∀ e w1, gcsDownload env w hash destinationPath = (.error e, w1) →
      e.isNotExist = false →
      downloadJobRun env registry w hash destinationPath =
        (.error (.wrap ("downloading from GCS") e), w1, [.gcsDownloadEv hash])) ∧
    (Ev.sourceLookupEv hash ∈ (downloadJobRun env registry w hash destinationPath).2.2 ↔
      ∃ e w1, gcsDownload env w hash destinationPath = (.error e, w1) ∧
        e.isNotExist = true) := by
  refine ⟨?_, ?_, ?_⟩
  · intro u w1 hgu
    unfold downloadJobRun
    rw [hgu]
  · intro e w1 hge hnot
    unfold downloadJobRun
    rw [hge]
    simp [hnot]
  · rcases hg : gcsDownload env w hash destinationPath with ⟨r, w1⟩
    cases r with
    | ok u =>
      unfold downloadJobRun
      rw [hg]
      simp
    | error e =>
      cases hn : e.isNotExist with
      | false =>
        unfold downloadJobRun
        rw [hg]
        simp [hn]
      | true =>
        unfold downloadJobRun
        rw [hg]
        simp only [hn, if_true]
        constructor
        · intro _
          exact ⟨e, w1, rfl, hn⟩
        · intro _
          rcases hs : sourceForBlobIn registry hash with e2 | source
          · simp [hs]
          · rcases hdf : downloadFromSource env w1.fs source destinationPath with ⟨rdf, fs2⟩
            cases rdf with
            | ok u3 =>
              rcases hup : gcsUpload env { w1 with fs := fs2 } destinationPath hash
                with ⟨rup, w3⟩
              cases rup with
              | ok u4 => simp [hs, hdf, hup]
              | error e4 => simp [hs, hdf, hup]
            | error e3 => simp [hs, hdf]

/-- Witness for C3: a transport-class durable-store failure (not the
"object does not exist" sentinel) is returned at once, with no origin-tier
event. -/
theorem claim_C3_witness :
    downloadJobRun { envA with gcsDlErr := fun _ => some ("boom") } regA worldEmpty
        "h" ["d"] =
      (.error (.wrap ("downloading from GCS")
          (.wrap ("opening object from GCS h") (.msg ("boom")))),
        worldEmpty, [.gcsDownloadEv "h"]) :=
  (claim_C3_durable_gate { envA with gcsDlErr := fun _ => some ("boom") } regA worldEmpty
    "h" ["d"]).2.1 _ worldEmpty rfl rfl

/-- C7: for an identifier with no local file, no durable object and no
registry entry, `GetBlob` fails with the "blob not known" condition (wrapped
by "getting source for blob" and "downloading blob") and creates no file
anywhere: the local filesystem and the durable store are exactly as
before. -/
theorem claim_C7_unknown_blob (env : Env) (registry : List knownBlob) (baseDir : FPath)
    (st : CacheState) (hash : String)
    (hopen : env.openErr (baseDir ++ [hash]) = none)
    (hlocal : st.world.fs (baseDir ++ [hash]) = none)
    (hjob : st.jobs hash = none)
    (hdl : env.gcsDlErr hash = none)
    (hgcs : st.world.gcs hash = none)
    (hreg : ∀ kb ∈ registry, kb.Hash ≠ hash) :
    (GetBlob env registry baseDir st hash).1 =
      .error (.wrap ("downloading blob " ++ hash)
        (.wrap ("getting source for blob " ++ hash)
          (.msg ("blob " ++ hash ++ " not known")))) ∧
    ((GetBlob env registry baseDir st hash).2.1).world = st.world := by
  have hfind : registry.reverse.find? (fun kb => kb.Hash = hash) = none := by
    rw [List.find?_eq_none]
    intro kb hkb
    simpa using hreg kb (by simpa using hkb)
  have hsrc : sourceForBlobIn registry hash =
      .error (.msg ("blob " ++ hash ++ " not known")) := by
    unfold sourceForBlobIn
    rw [sourceLoop_eq_lastMatch, hfind]
    rfl
  unfold GetBlob openFile downloadBlob downloadJobRun gcsDownload
  simp only [hopen, hlocal, hjob, hdl, hgcs, hsrc, GErr.isNotExist, if_true]
  exact ⟨trivial, trivial⟩

/-- Witness for C7 at the concrete identifier `z`, absent from disk, durable
store and registry: the "not known" failure and an unchanged world. -/
theorem claim_C7_witness :
    (GetBlob envA regA ["base"] stEmpty "z").1 =
      .error (.wrap ("downloading blob z")
        (.wrap ("getting source for blob z") (.msg ("blob z not known")))) ∧
    ((GetBlob envA regA ["base"] stEmpty "z").2.1).world = stEmpty.world :=
  claim_C7_unknown_blob envA regA ["base"] stEmpty "z" rfl rfl rfl rfl rfl (by decide)

/-- C4: when the durable tier misses, the origin fetch succeeds and publishes
the blob at the destination, but the write-back upload to the durable store
fails, the pipeline — and hence `GetBlob` — returns the upload error even
though the complete blob is present at the destination path. -/
theorem claim_C4_upload_failure_fails_request (env : Env) (registry : List knownBlob)
    (baseDir : FPath) (st : CacheState) (hash source emsg : String) (body : Content)
    (hopen : env.openErr (baseDir ++ [hash]) = none)
    (hlocal : st.world.fs (baseDir ++ [hash]) = none)
    (hjob : st.jobs hash = none)
    (hdl : env.gcsDlErr hash = none)
    (hgcs : st.world.gcs hash = none)
    (hsrc : sourceForBlobIn registry hash = .ok source)
    (horigin : env.originResp source = .ok (200, body))
    (hwf : env.writeFaults = noFaults)
    (hattrs : env.gcsAttrsErr hash = none)
    (hup : env.gcsUploadCopyErr hash = some emsg) :
    (downloadJobRun env registry st.world hash (baseDir ++ [hash])).1 =
      .error (.wrap ("uploading to GCS") (.wrap ("uploading to GCS") (.msg emsg))) ∧
    ((downloadJobRun env registry st.world hash (baseDir ++ [hash])).2.1).fs
        (baseDir ++ [hash]) = some body ∧
    (GetBlob env registry baseDir st hash).1 =
      .error (.wrap ("downloading blob " ++ hash)
        (.wrap ("uploading to GCS") (.wrap ("uploading to GCS") (.msg emsg)))) ∧
    ((GetBlob env registry baseDir st hash).2.1).world.fs (baseDir ++ [hash]) = some body := by
  unfold GetBlob openFile downloadBlob downloadJobRun gcsDownload downloadFromSource
    gcsUpload writeToFile
  rw [hwf]
  simp only [hopen, hlocal, hjob, hdl, hgcs, hsrc, horigin, hattrs, hup, noFaults,
    GErr.isNotExist, setFile_same, if_true, ne_eq]
  simp [setFile_same]

/-- Witness for C4: with a failing durable-store upload, the whole request
for `h` fails while the blob's bytes sit published at the local cache
path. -/
theorem claim_C4_witness :
    (GetBlob { envA with gcsUploadCopyErr := fun _ => some ("quota") } regA ["base"]
        stEmpty "h").1 =
      .error (.wrap ("downloading blob h")
        (.wrap ("uploading to GCS") (.wrap ("uploading to GCS") (.msg ("quota"))))) ∧
    ((GetBlob { envA with gcsUploadCopyErr := fun _ => some ("quota") } regA ["base"]
        stEmpty "h").2.1).world.fs ["base", "h"] = some [1, 2, 3] := by
  have h := claim_C4_upload_failure_fails_request
    { envA with gcsUploadCopyErr := fun _ => some ("quota") } regA ["base"] stEmpty
    "h" "u" "quota" [1, 2, 3] rfl rfl rfl rfl rfl (by decide) rfl rfl rfl rfl
  exact ⟨h.2.2.1, h.2.2.2⟩

/-- C5: requests whose path splits into zero or more than one token get
404; a one-token path served with a non-GET method gets 405; a GET on a
one-token path returns the blob as a file (status 200) when resolution
succeeds and 500 when it fails. (The split of Go's `strings.Split` always
produces at least one token, so the zero-token 404 arm of the route is
vacuously satisfied; the root path `/` splits into the single empty
token.) -/
theorem claim_C5_routing (env : Env) (registry : List knownBlob) (baseDir : FPath)
    (st : CacheState) (method path : String) :
    (pathTokens path = [] → (serveHTTP env registry baseDir st method path).1 =
      .errorResp 404) ∧
    ((pathTokens path).length > 1 → (serveHTTP env registry baseDir st method path).1 =
      .errorResp 404) ∧
    (∀ hash, pathTokens path = [hash] → method ≠ "GET" →
      (serveHTTP env registry baseDir st method path).1 = .errorResp 405) ∧
    (∀ hash, pathTokens path = [hash] → method = "GET" →
      (∀ c, (GetBlob env registry baseDir st hash).1 = .ok c →
        (serveHTTP env registry baseDir st method path).1 = .okFile (baseDir ++ [hash])) ∧
      (∀ e, (GetBlob env registry baseDir st hash).1 = .error e →
        (serveHTTP env registry baseDir st method path).1 = .errorResp 500)) := by
  refine ⟨?_, ?_, ?_, ?_⟩
  · intro h
    unfold serveHTTP
    rw [h]
  · intro h
    unfold serveHTTP
    rcases hp : pathTokens path with _ | ⟨t, _ | ⟨t2, rest⟩⟩
    · rfl
    · rw [hp] at h
      simp at h
    · rfl
  · intro hash hp hm
    unfold serveHTTP
    rw [hp]
    simp [hm]
  · intro hash hp hm
    rcases hget : GetBlob env registry baseDir st hash with ⟨r, st', tr⟩
    constructor
    · intro c hc
      unfold serveHTTP
      rw [hp]
      simp [hm, hget, show r = .ok c from hc]
    · intro e hc
      unfold serveHTTP
      rw [hp]
      simp [hm, hget, show r = .error e from hc]

/-- Witness for C5: a two-segment path gets 404, a non-GET method on a
one-segment path gets 405, and a GET for an unknown blob gets 500. -/
theorem claim_C5_witness :
    (serveHTTP envA regA ["base"] stEmpty "GET" "/x/y").1 = .errorResp 404 ∧
    (serveHTTP envA regA ["base"] stEmpty "POST" "/h").1 = .errorResp 405 ∧
    (serveHTTP envA regA ["base"] stEmpty "GET" "/zz").1 = .errorResp 500 := by
  refine ⟨?_, ?_, ?_⟩
  · exact (claim_C5_routing envA regA ["base"] stEmpty "GET" "/x/y").2.1 (by decide)
  · exact (claim_C5_routing envA regA ["base"] stEmpty "POST" "/h").2.2.1 "h" (by decide)
      (by decide)
  · exact ((claim_C5_routing envA regA ["base"] stEmpty "GET" "/zz").2.2.2 "zz" (by decide)
      rfl).2 (.wrap ("downloading blob zz")
        (.wrap ("getting source for blob zz") (.msg ("blob zz not known")))) (by decide)

theorem noRetryRes_spec (f : MLFaults) (tempName : String) (fs : FS) (url : String)
    (destPath : FPath) :
    (downloadToFileNoRetry f tempName fs url destPath).1 = noRetryRes f url := by
  rcases f with ⟨resp, ct, cp, cl, rn⟩
  cases ct <;> rcases resp with e | ⟨status, body⟩ <;> cases cp <;> cases cl <;> cases rn <;>
    simp [downloadToFileNoRetry, noRetryRes] <;> split <;> simp

theorem downloadToFileFrom_count_le (oracle : Nat → MLFaults) (tempNames : Nat → String)
    (m : Nat) (url : String) (destPath : FPath) :
    ∀ attempt fs,
      (downloadToFileFrom oracle tempNames m url destPath attempt fs).2.2.1 ≤
        max (attempt + 1) m := by
  suffices h : ∀ n attempt fs, m - attempt = n →
      (downloadToFileFrom oracle tempNames m url destPath attempt fs).2.2.1 ≤
        max (attempt + 1) m by
    intro attempt fs
    exact h (m - attempt) attempt fs rfl
  intro n
  induction n with
  | zero =>
    intro attempt fs hn
    rw [downloadToFileFrom]
    rcases hnr : downloadToFileNoRetry (oracle (attempt + 1)) (tempNames (attempt + 1)) fs
        url destPath with ⟨r, fs'⟩
    cases r with
    | ok u => simp
    | error e =>
      have hle : m ≤ attempt + 1 := by omega
      simp [hle]
  | succ n ih =>
    intro attempt fs hn
    rw [downloadToFileFrom]
    rcases hnr : downloadToFileNoRetry (oracle (attempt + 1)) (tempNames (attempt + 1)) fs
        url destPath with ⟨r, fs'⟩
    cases r with
    | ok u => simp
    | error e =>
      by_cases hle : m ≤ attempt + 1
      · simp [hle]
      · have h2 := ih (attempt + 1) fs' (by omega)
        simp only [hle, dite_false]
        simp only [not_le] at hle
        calc (downloadToFileFrom oracle tempNames m url destPath (attempt + 1) fs').2.2.1 ≤
              max (attempt + 1 + 1) m := h2
          _ ≤ max (attempt + 1) m := by omega

theorem downloadToFileFrom_sleeps (oracle : Nat → MLFaults) (tempNames : Nat → String)
    (m : Nat) (url : String) (destPath : FPath) :
    ∀ attempt fs d,
      d ∈ (downloadToFileFrom oracle tempNames m url destPath attempt fs).2.2.2 →
      d = 5 := by
  suffices h : ∀ n attempt fs, m - attempt = n → ∀ d,
      d ∈ (downloadToFileFrom oracle tempNames m url destPath attempt fs).2.2.2 → d = 5 by
    intro attempt fs
    exact h (m - attempt) attempt fs rfl
  intro n
  induction n with
  | zero =>
    intro attempt fs hn d
    rw [downloadToFileFrom]
    rcases hnr : downloadToFileNoRetry (oracle (attempt + 1)) (tempNames (attempt + 1)) fs
        url destPath with ⟨r, fs'⟩
    cases r with
    | ok u => simp
    | error e =>
      have hle : m ≤ attempt + 1 := by omega
      simp [hle]
  | succ n ih =>
    intro attempt fs hn d
    rw [downloadToFileFrom]
    rcases hnr : downloadToFileNoRetry (oracle (attempt + 1)) (tempNames (attempt + 1)) fs
        url destPath with ⟨r, fs'⟩
    cases r with
    | ok u => simp
    | error e =>
      by_cases hle : m ≤ attempt + 1
      · simp [hle]
      · simp only [hle, dite_false, List.mem_cons]
        rintro (rfl | hd)
        · rfl
        · exact ih (attempt + 1) fs' (by omega) d hd

theorem downloadToFileFrom_exhaust (oracle : Nat → MLFaults) (tempNames : Nat → String)
    (m : Nat) (url : String) (destPath : FPath)
    (hfail : ∀ a, ∃ e, noRetryRes (oracle a) url = .error e) :
    ∀ attempt fs,
      (downloadToFileFrom oracle tempNames m url destPath attempt fs).1 =
        noRetryRes (oracle (max (attempt + 1) m)) url := by
  suffices h : ∀ n attempt fs, m - attempt = n →
      (downloadToFileFrom oracle tempNames m url destPath attempt fs).1 =
        noRetryRes (oracle (max (attempt + 1) m)) url by
    intro attempt fs
    exact h (m - attempt) attempt fs rfl
  intro n
  induction n with
  | zero =>
    intro attempt fs hn
    rw [downloadToFileFrom]
    rcases hnr : downloadToFileNoRetry (oracle (attempt + 1)) (tempNames (attempt + 1)) fs
        url destPath with ⟨r, fs'⟩
    have hr : r = noRetryRes (oracle (attempt + 1)) url := by
      have hspec := noRetryRes_spec (oracle (attempt + 1)) (tempNames (attempt + 1)) fs
        url destPath
      rw [hnr] at hspec
      exact hspec
    obtain ⟨e, he⟩ := hfail (attempt + 1)
    have hle : m ≤ attempt + 1 := by omega
    have hmax : max (attempt + 1) m = attempt + 1 := by omega
    rw [hmax, hr, he]
    simp [hle]
  | succ n ih =>
    intro attempt fs hn
    rw [downloadToFileFrom]
    rcases hnr : downloadToFileNoRetry (oracle (attempt + 1)) (tempNames (attempt + 1)) fs
        url destPath with ⟨r, fs'⟩
    have hr : r = noRetryRes (oracle (attempt + 1)) url := by
      have hspec := noRetryRes_spec (oracle (attempt + 1)) (tempNames (attempt + 1)) fs
        url destPath
      rw [hnr] at hspec
      exact hspec
    obtain ⟨e, he⟩ := hfail (attempt + 1)
    rw [hr, he]
    by_cases hle : m ≤ attempt + 1
    · have hmax : max (attempt + 1) m = attempt + 1 := by omega
      rw [hmax, he]
      simp [hle]
    · have h2 := ih (attempt + 1) fs' (by omega)
      have hmax : max (attempt + 1 + 1) m = m := by omega
      have hmax2 : max (attempt + 1) m = m := by omega
      rw [hmax] at h2
      simp only [hle, dite_false]
      rw [hmax2]
      exact h2

/-- C6: the retrying fetcher treats a non-200 response status as a fatal
error for the attempt (in both the model loader's per-attempt download and
the blob cache's origin fetch, which share the check), retries the whole
operation up to `maxDownloadAttempts` attempts with a fixed five-second
inter-attempt delay, and when every attempt fails it returns the final
attempt's error verbatim. -/
theorem claim_C6_retrying_fetcher (oracle : Nat → MLFaults) (tempNames : Nat → String)
    (maxDownloadAttempts : Nat) (url : String) (destPath : FPath) (fs : FS) (env : Env) :
    (∀ a fs0 status body, (oracle a).resp = .ok (status, body) → status ≠ 200 →
      (oracle a).wf.createTempFail = none →
      (downloadToFileNoRetry (oracle a) (tempNames a) fs0 url destPath).1 =
        .error (.wrap ("downloading from " ++ url)
          (.msg ("unexpected status downloading from upstream source: " ++
            toString status)))) ∧
    (downloadToFile oracle tempNames maxDownloadAttempts url destPath fs).2.2.1 ≤
      max 1 maxDownloadAttempts ∧
    (∀ d, d ∈ (downloadToFile oracle tempNames maxDownloadAttempts url destPath fs).2.2.2 →
      d = 5) ∧
    ((∀ a, ∃ e, noRetryRes (oracle a) url = .error e) →
      (downloadToFile oracle tempNames maxDownloadAttempts url destPath fs).1 =
        noRetryRes (oracle (max 1 maxDownloadAttempts)) url) ∧
    (∀ fs1 source status body, env.originResp source = .ok (status, body) → status ≠ 200 →
      downloadFromSource env fs1 source destPath =
        (.error (.msg ("unexpected status downloading from upstream source: " ++
          toString status)), fs1)) := by
  refine ⟨?_, ?_, ?_, ?_, ?_⟩
  · intro a fs0 status body hresp hst hct
    unfold downloadToFileNoRetry
    rw [hct, hresp]
    simp [hst]
  · exact downloadToFileFrom_count_le oracle tempNames maxDownloadAttempts url destPath 0 fs
  · exact fun d hd =>
      downloadToFileFrom_sleeps oracle tempNames maxDownloadAttempts url destPath 0 fs d hd
  · intro hfail
    exact downloadToFileFrom_exhaust oracle tempNames maxDownloadAttempts url destPath
      hfail 0 fs
  · intro fs1 source status body hresp hst
    unfold downloadFromSource
    rw [hresp]
    simp [hst]

/-- Witness for C6: an origin that always answers 500 makes each attempt
fail with the status error, the loop stops after the five allowed attempts,
and the fifth attempt's error is returned; a 503 makes the blob cache's
single-shot origin fetch fail the same way. -/
theorem claim_C6_witness :
    (downloadToFileNoRetry (⟨.ok (500, []), noFaults⟩ : MLFaults) "t" (fun _ => none)
        "u" ["d"]).1 =
      .error (.wrap ("downloading from u")
        (.msg ("unexpected status downloading from upstream source: 500"))) ∧
    (downloadToFile (fun _ => ⟨.ok (500, []), noFaults⟩) (fun _ => "t") 5 "u" ["d"]
        (fun _ => none)).2.2.1 ≤ 5 ∧
    (downloadToFile (fun _ => ⟨.ok (500, []), noFaults⟩) (fun _ => "t") 5 "u" ["d"]
        (fun _ => none)).1 =
      .error (.wrap ("downloading from u")
        (.msg ("unexpected status downloading from upstream source: 500"))) ∧
    downloadFromSource { envA with originResp := fun _ => .ok (503, []) } (fun _ => none)
        "u" ["d"] =
      (.error (.msg ("unexpected status downloading from upstream source: 503")),
        fun _ => none) := by
  have thm := claim_C6_retrying_fetcher (fun _ => ⟨.ok (500, []), noFaults⟩) (fun _ => "t")
    5 "u" ["d"] (fun _ => none) { envA with originResp := fun _ => .ok (503, []) }
  refine ⟨?_, thm.2.1, ?_, ?_⟩
  · exact thm.1 1 (fun _ => none) 500 [] rfl (by decide) rfl
  · exact (thm.2.2.2.1 (fun a => ⟨_, rfl⟩)).trans rfl
  · exact thm.2.2.2.2 (fun _ => none) "u" 503 [] rfl (by decide)
